import Mathlib

/-!
Shallow embedding of the inventory reorder-point calculator and the day-by-day
inventory simulator (src/models/data_classes.py, src/models/calculations.py,
src/simulation/simulator.py, src/visualization/plots.py).

Modelling conventions:
* Python floats are modelled as rationals (ℚ).
* `int(x)` (truncation toward zero) is `pyInt`; `np.clip` is `npClip`;
  `int(np.ceil x)` is `Int.ceil` (the ceiling of a float is integral, so the
  truncation is exact).
* Calls into numpy's random generator are modelled as oracle inputs: a normal
  draw `np.random.normal(mean, std)` becomes `mean + std * noise` for an
  arbitrary rational `noise`, and the percentile of 10000 standard-normal
  samples in the calculator becomes an arbitrary rational `q`.
* `np.sqrt` is modelled as an oracle function `sqrt : ℚ → ℚ` (an exact rational
  square root does not exist); theorems that need facts about it take them as
  hypotheses that the real square root satisfies.
-/

/-- Python `int(x)` for a float `x`: truncation toward zero. -/
def pyInt (x : ℚ) : ℤ := if 0 ≤ x then ⌊x⌋ else ⌈x⌉

/-- numpy `np.clip(x, lo, hi)` = `min (max x lo) hi`. -/
def npClip (x lo hi : ℚ) : ℚ := min (max x lo) hi

/-- src/models/data_classes.py: `BusinessPriority` enumeration. -/
inductive BusinessPriority
  | high
  | standard
  | low_margin
deriving DecidableEq, Repr

/-- src/models/data_classes.py: `DeliveryTimeProfile` dataclass. -/
structure DeliveryTimeProfile where
  mean_days : ℚ
  std_days : ℚ
  min_days : ℚ
  max_days : ℚ
deriving DecidableEq, Repr

/-- src/models/data_classes.py: `SiteParameters` dataclass. -/
structure SiteParameters where
  business_priority : BusinessPriority
  typical_daily_usage : ℚ
  usage_variability : ℚ
  railcar_capacity : ℚ
  delivery_profile : DeliveryTimeProfile
  price_risk_tolerance : ℚ
deriving DecidableEq, Repr

/-- src/models/data_classes.py: `SiteParameters.get_service_level`. -/
def SiteParameters.get_service_level (p : SiteParameters) : ℚ :=
  match p.business_priority with
  | .high => 99 / 100
  | .standard => 95 / 100
  | .low_margin => 9 / 10

/-- The dict returned by `calculate_reorder_targets`
    (src/models/calculations.py), as a typed record with the same keys. -/
structure ReorderTargets where
  reorder_point : ℚ
  recommended_railcars : ℤ
  max_railcars : ℤ
  safety_stock : ℚ
  expected_stockout_days_per_year : ℤ
  lead_time_demand : ℚ
deriving DecidableEq, Repr

/-- src/models/calculations.py: `calculate_reorder_targets`.
    `sqrt` is the oracle for `np.sqrt`; `q` is the oracle for the value of
    `np.percentile(np.random.standard_normal(10000), service_level * 100)`
    (the code then takes `np.abs` of it).  Note the returned record mirrors
    the source dict exactly: the key `recommended_railcars` is bound to
    `int(min_railcars)` and the key `max_railcars` to
    `int(np.ceil(risk_adjusted_railcars))`, while the local variable
    `max_railcars` holds `np.ceil((lead_time_demand + safety_stock) / capacity)`. -/
def calculate_reorder_targets (sqrt : ℚ → ℚ) (q : ℚ)
    (params : SiteParameters) : ReorderTargets :=
  let service_level := params.get_service_level
  let business_days_in_lead_time := params.delivery_profile.mean_days * (5 / 7)
  let lead_time_demand := params.typical_daily_usage * business_days_in_lead_time
  let z_score := |q|
  let demand_uncertainty := params.usage_variability * sqrt business_days_in_lead_time
  let lead_time_uncertainty :=
    params.typical_daily_usage * params.delivery_profile.std_days * (5 / 7)
  let safety_stock := z_score * sqrt (demand_uncertainty ^ 2 + lead_time_uncertainty ^ 2)
  let reorder_point := lead_time_demand + safety_stock
  let min_railcars : ℤ := max 1 ⌈lead_time_demand / params.railcar_capacity⌉
  let max_railcars : ℤ := ⌈(lead_time_demand + safety_stock) / params.railcar_capacity⌉
  let risk_adjusted_railcars : ℚ :=
    (min_railcars : ℚ) + ((max_railcars : ℚ) - (min_railcars : ℚ))
      * (1 - params.price_risk_tolerance)
  ⟨reorder_point,
   min_railcars,
   ⌈risk_adjusted_railcars⌉,
   safety_stock,
   pyInt (250 * (1 - service_level)),
   lead_time_demand⟩

/-- Concrete site used to exercise the calculator: usage 20000, no usage
    variability, capacity 30000, delivery mean 7 days (= 5 business days),
    std 7/4 days, risk tolerance 1/2. -/
def P1 : SiteParameters :=
  ⟨.standard, 20000, 0, 30000, ⟨7, 7 / 4, 1, 14⟩, 1 / 2⟩

/-- Invalid site (negative daily usage) used to show that the calculator
    performs no input validation. -/
def P3 : SiteParameters :=
  ⟨.standard, -7, 0, 10, ⟨7, 0, 1, 9⟩, 0⟩

/-- Scenario names accepted by the simulator
    ('best_case', 'worst_case', anything else = expected). -/
inductive Scenario
  | best_case
  | worst_case
  | expected
deriving DecidableEq, Repr

/-- src/simulation/simulator.py: `calculate_needed_railcars`.
    `int(np.ceil(x))` on the positive float `shortage / capacity` is exactly
    `Int.ceil`. -/
def calculate_needed_railcars (current_inv incoming : ℚ) (params : SiteParameters)
    (reorder_point : ℚ) : ℤ :=
  let total_current_coverage := current_inv + incoming
  if total_current_coverage < reorder_point then
    max 1 ⌈(reorder_point - total_current_coverage) / params.railcar_capacity⌉
  else 0

/-- src/simulation/simulator.py: `generate_delivery_time`.  The call
    `np.random.normal(mean, std)` is modelled as `mean + std * noise`, with the
    standard-normal draw `noise` supplied as an oracle input. -/
def generate_delivery_time (profile : DeliveryTimeProfile) (scenario : Scenario)
    (noise : ℚ) : ℤ :=
  let ms : ℚ × ℚ :=
    match scenario with
    | .best_case => (profile.min_days, 1 / 2)
    | .worst_case => (profile.max_days, 1 / 2)
    | .expected => (profile.mean_days, profile.std_days)
  let delivery := ms.1 + ms.2 * noise
  pyInt (npClip delivery profile.min_days profile.max_days)

/-- The scenario demand multiplier of `simulate_days`:
    `0.8 if best_case else 1.2 if worst_case else 1.0`. -/
def demand_multiplier : Scenario → ℚ
  | .best_case => 4 / 5
  | .worst_case => 6 / 5
  | .expected => 1

/-- One row of the simulator's per-day tracking lists.  `date` is the offset
    in days from `start_date`.  Ghost fields record values the loop computes
    but does not store per day: `incoming_at_check` is the pending total at
    the reorder-check step, `pending_after` the pending total at the end of
    the day, and `order` the order event placed on the day, if any, as
    (railcar count, scheduled delivery date). -/
structure DayRecord where
  date : ℤ
  inventory : ℚ
  railcars_in_transit : ℕ
  reorder_point : ℚ
  incoming_at_check : ℚ
  pending_after : ℚ
  order : Option (ℤ × ℤ)
deriving DecidableEq, Repr

/-- The loop-carried state of `simulate_days`: `current_inv` and the
    `pending_deliveries` list of (delivery_date, amount) pairs. -/
structure SimState where
  current_inv : ℚ
  pending_deliveries : List (ℤ × ℚ)
deriving DecidableEq, Repr

/-- The outputs of `simulate_days`: the per-day records, the `orders` list of
    (order date, railcar count) events, and the `incoming` column of the
    returned DataFrame as the source builds it. -/
structure SimResult where
  records : List DayRecord
  orders : List (ℤ × ℤ)
  incoming_column : List ℚ
deriving DecidableEq, Repr

section Simulator

variable (p : SiteParameters) (rp : ℚ) (scen : Scenario) (w0 : ℕ) (dN lN : ℕ → ℚ)

/-- The body of one iteration of the `for day in range(days)` loop of
    `simulate_days` (src/simulation/simulator.py), in source order: deliveries
    arrive, weekday demand is consumed, the reorder check runs, an order is
    placed when needed.  Dates are day offsets from `start_date`, whose
    weekday is `w0` (Python convention: Monday = 0), so
    `(start_date + day).weekday() = (w0 + day) % 7`.  The demand draw
    `np.random.normal(usage * multiplier, variability)` is modelled as
    `usage * multiplier + variability * dN day`; the delivery-time draw uses
    the oracle `lN day`. -/
def sim_step (day : ℕ) (st : SimState) : SimState × DayRecord :=
  let delivered_today :=
    ((st.pending_deliveries.filter fun pd => pd.1 = (day : ℤ)).map Prod.snd).sum
  let inv1 := st.current_inv + delivered_today
  let pending1 := st.pending_deliveries.filter fun pd => pd.1 ≠ (day : ℤ)
  let inv2 :=
    if (w0 + day) % 7 < 5 then
      let demand := p.typical_daily_usage * demand_multiplier scen
        + p.usage_variability * dN day
      inv1 - max 0 (min demand inv1)
    else inv1
  let incoming := (pending1.map Prod.snd).sum
  let needed_railcars := calculate_needed_railcars inv2 incoming p rp
  if 0 < needed_railcars then
    let delivery_time := generate_delivery_time p.delivery_profile scen (lN day)
    let delivery_date := (day : ℤ) + delivery_time
    let pending2 :=
      pending1 ++ [(delivery_date, (needed_railcars : ℚ) * p.railcar_capacity)]
    (⟨inv2, pending2⟩,
     ⟨(day : ℤ), inv2, pending2.length, rp, incoming,
      (pending2.map Prod.snd).sum, some (needed_railcars, delivery_date)⟩)
  else
    (⟨inv2, pending1⟩,
     ⟨(day : ℤ), inv2, pending1.length, rp, incoming,
      (pending1.map Prod.snd).sum, none⟩)

/-- The first `n` iterations of the simulation loop of `simulate_days`,
    started from `current_inv = reorder_point` and no pending deliveries,
    returning the loop state, the per-day records and the order log. -/
def sim_run : ℕ → SimState × List DayRecord × List (ℤ × ℤ)
  | 0 => (⟨rp, []⟩, [], [])
  | n + 1 =>
    let acc := sim_run n
    let step := sim_step p rp scen w0 dN lN n acc.1
    (step.1, acc.2.1 ++ [step.2],
     acc.2.2 ++ (match step.2.order with
       | some oc => [(step.2.date, oc.1)]
       | none => []))

/-- src/simulation/simulator.py: `simulate_days`.  The `incoming` column of
    the returned DataFrame is built by the source after the loop as
    `[sum(amount for _, amount in pending_deliveries) for _ in range(days)]`,
    i.e. the end-of-run pending total repeated `days` times. -/
def simulate_days (days : ℕ) : SimResult :=
  let out := sim_run p rp scen w0 dN lN days
  ⟨out.2.1, out.2.2,
   List.replicate days ((out.1.pending_deliveries.map Prod.snd).sum)⟩

end Simulator

/-- The dict returned by `get_scenario_metrics` (src/visualization/plots.py). -/
structure ScenarioMetrics where
  average_inventory : ℤ
  total_railcars : ℤ
  near_stockouts : ℕ
deriving DecidableEq, Repr

/-- src/visualization/plots.py: `get_scenario_metrics`, applied to the
    inventory column of the simulation DataFrame and the orders list.
    `np.mean` of an empty series is NaN and `int(NaN)` raises
    `ValueError: cannot convert float NaN to integer`, so the operation is
    modelled as fallible; on a nonempty series `np.mean` is the exact mean. -/
def get_scenario_metrics (inventory : List ℚ) (orders : List (ℤ × ℤ)) :
    Except String ScenarioMetrics :=
  if inventory.isEmpty then
    .error "cannot convert float NaN to integer"
  else
    .ok ⟨pyInt (inventory.sum / (inventory.length : ℚ)),
         (orders.map Prod.snd).sum,
         (inventory.filter fun inv => inv ≤ 1000).length⟩

/-- Fixture for concrete two-day runs: usage 5, variability 1, capacity 10,
    delivery time pinned at exactly 1 day. -/
def P2 : SiteParameters := ⟨.standard, 5, 1, 10, ⟨1, 0, 1, 1⟩, 1 / 2⟩

/-- Demand-noise oracle for runs over `P2`: demand 5 on day 0, demand 2 on
    later weekdays. -/
def dN2 : ℕ → ℚ := fun n => if n = 0 then 0 else -3

/-- Fixture with a fractional minimum delivery time: profile
    (mean 8/5, std 0, min 3/2, max 7/2).  In the expected scenario the
    delivery draw is the mean 8/5, which `int(np.clip(...))` truncates to 1,
    below `min_days = 3/2`. -/
def P6 : SiteParameters := ⟨.standard, 5, 1, 10, ⟨8 / 5, 0, 3 / 2, 7 / 2⟩, 1 / 2⟩

/-- Invariant carried through the simulation loop: the running inventory and
    every pending delivery amount are non-negative. -/
def StateOK (st : SimState) : Prop :=
  0 ≤ st.current_inv ∧ ∀ pd ∈ st.pending_deliveries, 0 ≤ pd.2

/-- Claim C1 fails on the code: the source binds the dict key
`recommended_railcars` to `int(min_railcars)` and the key `max_railcars` to
`int(np.ceil(risk_adjusted_railcars))`, not the other way round.  At the site
`P1` with z-draw 14/5 (where the only square root taken is
√625000000 = 25000) the code returns recommended = 4 and max = 5, while the
claimed formulas give max = ⌈reorder_point/capacity⌉ = 6 and
recommended = ⌈min + (max − min)(1 − tolerance)⌉ = ⌈4 + (6 − 4)(1 − 1/2)⌉ = 5. -/
theorem C1_railcar_fields (s : ℚ → ℚ) (hs : s 625000000 = 25000) :
    calculate_reorder_targets s (14 / 5) P1 = ⟨170000, 4, 5, 70000, 12, 100000⟩
    ∧ ⌈(calculate_reorder_targets s (14 / 5) P1).reorder_point
        / P1.railcar_capacity⌉ = 6
    ∧ ⌈(4 : ℚ) + ((6 : ℚ) - (4 : ℚ)) * (1 - P1.price_risk_tolerance)⌉ = 5
    ∧ (calculate_reorder_targets s (14 / 5) P1).max_railcars ≠ 6
    ∧ (calculate_reorder_targets s (14 / 5) P1).recommended_railcars ≠ 5 := by
  have habs : |(14 : ℚ) / 5| = 14 / 5 := abs_of_nonneg (by norm_num)
  have hc1 : ⌈(10 : ℚ) / 3⌉ = 4 := by rw [Int.ceil_eq_iff] ; norm_num
  have hc2 : ⌈(17 : ℚ) / 3⌉ = 6 := by rw [Int.ceil_eq_iff] ; norm_num
  have hc3 : ⌈(5 : ℚ)⌉ = 5 := by rw [Int.ceil_eq_iff] ; norm_num
  have hf : ⌊(25 : ℚ) / 2⌋ = 12 := by rw [Int.floor_eq_iff] ; norm_num
  have key : calculate_reorder_targets s (14 / 5) P1
      = ⟨170000, 4, 5, 70000, 12, 100000⟩ := by
    simp only [calculate_reorder_targets, P1, SiteParameters.get_service_level]
    norm_num [habs]
    rw [hs]
    norm_num [habs, pyInt, hf, hc1]
    rw [hc2]
    norm_num [hc3]
  refine ⟨key, ?_, ?_, ?_, ?_⟩
  · rw [key]
    show ⌈(170000 : ℚ) / P1.railcar_capacity⌉ = 6
    norm_num [P1]
    exact hc2
  · norm_num [P1]
  · rw [key]; decide
  · rw [key]; decide

/-- Witness for C1_railcar_fields at the oracle returning 25000. -/
theorem C1_railcar_fields_witness :
    (fun _ : ℚ => (25000 : ℚ)) 625000000 = 25000
    ∧ (calculate_reorder_targets (fun _ : ℚ => (25000 : ℚ)) (14 / 5) P1).max_railcars = 5
    ∧ (calculate_reorder_targets (fun _ : ℚ => (25000 : ℚ)) (14 / 5) P1).recommended_railcars = 4 :=
  ⟨rfl,
   by rw [(C1_railcar_fields (fun _ => 25000) rfl).1],
   by rw [(C1_railcar_fields (fun _ => 25000) rfl).1]⟩

/-- Claim C3 fails on the code: no `InvalidParameterError` (or any validation)
exists in the source.  With typical_daily_usage = −7 the calculator returns
normally — with a negative reorder point and a negative `max_railcars` — and
`simulate_days` with days = 0 returns empty outputs instead of failing. -/
theorem C3_no_validation_counterexample :
    calculate_reorder_targets (fun x => x) 0 P3 = ⟨-35, 1, -3, 0, 12, -35⟩
    ∧ simulate_days P3 10 .expected 0 (fun _ => 0) (fun _ => 0) 0 = ⟨[], [], []⟩ := by
  constructor
  · have hc1 : ⌈-((7 : ℚ) / 2)⌉ = -3 := by rw [Int.ceil_eq_iff] ; norm_num
    have hf : ⌊(25 : ℚ) / 2⌋ = 12 := by rw [Int.floor_eq_iff] ; norm_num
    simp only [calculate_reorder_targets, P3, SiteParameters.get_service_level]
    norm_num [pyInt, hf]
    rw [hc1]
    norm_num
  · simp [simulate_days, sim_run]

/-- Claim C3 amended: neither operation validates its inputs.
`calculate_reorder_targets` computes its formulas for every input (shown here:
the lead-time-demand formula holds with no precondition at all), and
`simulate_days` with days < 1 returns an empty time series and order log
rather than raising. -/
theorem C3_no_validation_amended (s : ℚ → ℚ) (q : ℚ) (params : SiteParameters) :
    (calculate_reorder_targets s q params).lead_time_demand
      = params.typical_daily_usage * (params.delivery_profile.mean_days * (5 / 7))
    ∧ ∀ p2 rp scen w0 dN lN, simulate_days p2 rp scen w0 dN lN 0 = ⟨[], [], []⟩ := by
  refine ⟨rfl, ?_⟩
  intro p2 rp scen w0 dN lN
  simp [simulate_days, sim_run]

/-- Claim C7 fails on the code: the z-score is re-sampled from the global
random generator on every call, so two calls on identical SiteParameters can
return different ReorderTargets.  Here the two calls draw percentile values 0
and 1 (both possible draws) and disagree on `reorder_point`. -/
theorem C7_two_calls_counterexample :
    calculate_reorder_targets (fun x => x) 0 P1
      ≠ calculate_reorder_targets (fun x => x) 1 P1 := by
  intro h
  have h2 := congrArg ReorderTargets.reorder_point h
  norm_num [calculate_reorder_targets, P1] at h2

/-- Claim C7 amended: two calls on identical SiteParameters agree on the
draw-independent fields (`recommended_railcars`, `lead_time_demand`,
`expected_stockout_days_per_year`) whatever the two percentile draws were, and
agree on every field when the internal standard-normal sampling yields the
same percentile value (a fixed quantile source). -/
theorem C7_fixed_draw_deterministic (s : ℚ → ℚ) (q1 q2 : ℚ) (params : SiteParameters) :
    (calculate_reorder_targets s q1 params).recommended_railcars
        = (calculate_reorder_targets s q2 params).recommended_railcars
    ∧ (calculate_reorder_targets s q1 params).lead_time_demand
        = (calculate_reorder_targets s q2 params).lead_time_demand
    ∧ (calculate_reorder_targets s q1 params).expected_stockout_days_per_year
        = (calculate_reorder_targets s q2 params).expected_stockout_days_per_year
    ∧ (q1 = q2 →
        calculate_reorder_targets s q1 params = calculate_reorder_targets s q2 params) :=
  ⟨rfl, rfl, rfl, fun h => by rw [h]⟩

/-- Witness for C7_fixed_draw_deterministic at concrete draws. -/
theorem C7_fixed_draw_deterministic_witness :
    (calculate_reorder_targets (fun x => x) 0 P1).recommended_railcars
      = (calculate_reorder_targets (fun x => x) 1 P1).recommended_railcars
    ∧ calculate_reorder_targets (fun x => x) 2 P1
      = calculate_reorder_targets (fun x => x) 2 P1 :=
  ⟨(C7_fixed_draw_deterministic (fun x => x) 0 1 P1).1,
   (C7_fixed_draw_deterministic (fun x => x) 2 2 P1).2.2.2 rfl⟩

/-- Claim C8: for valid SiteParameters (positive usage and capacity,
non-negative variability and delivery mean/std), the calculator's outputs
satisfy reorder_point = lead_time_demand + safety_stock,
0 ≤ lead_time_demand ≤ reorder_point, and 0 ≤ safety_stock.  The oracle
hypothesis `hs` records that np.sqrt is non-negative on non-negative
arguments. -/
theorem C8_reorder_point_bounds (s : ℚ → ℚ) (q : ℚ) (params : SiteParameters)
    (hs : ∀ x, 0 ≤ x → 0 ≤ s x)
    (husage : 0 < params.typical_daily_usage)
    (hcap : 0 < params.railcar_capacity)
    (hvar : 0 ≤ params.usage_variability)
    (hmean : 0 ≤ params.delivery_profile.mean_days)
    (hstd : 0 ≤ params.delivery_profile.std_days) :
    (calculate_reorder_targets s q params).reorder_point
        = (calculate_reorder_targets s q params).lead_time_demand
          + (calculate_reorder_targets s q params).safety_stock
    ∧ 0 ≤ (calculate_reorder_targets s q params).lead_time_demand
    ∧ (calculate_reorder_targets s q params).lead_time_demand
        ≤ (calculate_reorder_targets s q params).reorder_point
    ∧ 0 ≤ (calculate_reorder_targets s q params).safety_stock := by
  have hss : 0 ≤ |q| * s ((params.usage_variability
        * s (params.delivery_profile.mean_days * (5 / 7))) ^ 2
      + (params.typical_daily_usage * params.delivery_profile.std_days * (5 / 7)) ^ 2) :=
    mul_nonneg (abs_nonneg q) (hs _ (by positivity))
  have hltd : 0 ≤ params.typical_daily_usage
      * (params.delivery_profile.mean_days * (5 / 7)) :=
    mul_nonneg husage.le (mul_nonneg hmean (by norm_num))
  exact ⟨rfl, hltd, le_add_of_nonneg_right hss, hss⟩

/-- Witness for C8_reorder_point_bounds at the site P2 with the identity
square-root oracle (its argument is only ever non-negative here). -/
theorem C8_reorder_point_bounds_witness :
    0 < P2.typical_daily_usage
    ∧ 0 ≤ (calculate_reorder_targets (fun x => x) 3 P2).safety_stock
    ∧ (calculate_reorder_targets (fun x => x) 3 P2).lead_time_demand
        ≤ (calculate_reorder_targets (fun x => x) 3 P2).reorder_point :=
  ⟨by norm_num [P2],
   (C8_reorder_point_bounds (fun x => x) 3 P2 (fun _ h => h) (by norm_num [P2])
      (by norm_num [P2]) (by norm_num [P2]) (by norm_num [P2]) (by norm_num [P2])).2.2.2,
   (C8_reorder_point_bounds (fun x => x) 3 P2 (fun _ h => h) (by norm_num [P2])
      (by norm_num [P2]) (by norm_num [P2]) (by norm_num [P2]) (by norm_num [P2])).2.2.1⟩

/-- An order is triggered (positive railcar count) exactly when
inventory + incoming falls below the reorder point. -/
theorem calculate_needed_railcars_pos_iff (inv inc : ℚ) (params : SiteParameters)
    (rp : ℚ) :
    0 < calculate_needed_railcars inv inc params rp ↔ inv + inc < rp := by
  simp only [calculate_needed_railcars]
  split
  · next h => exact iff_of_true (lt_of_lt_of_le one_pos (le_max_left _ _)) h
  · next h => exact iff_of_false (lt_irrefl 0) h

/-- Below the reorder point the railcar count is
max(1, ⌈shortage / capacity⌉). -/
theorem calculate_needed_railcars_of_lt (inv inc : ℚ) (params : SiteParameters)
    (rp : ℚ) (h : inv + inc < rp) :
    calculate_needed_railcars inv inc params rp
      = max 1 ⌈(rp - inv - inc) / params.railcar_capacity⌉ := by
  simp only [calculate_needed_railcars]
  rw [if_pos h, sub_add_eq_sub_sub]

/-- The truncated clipped draw lies in [⌊min_days⌋, max_days] whenever
0 ≤ min_days ≤ max_days. -/
theorem generate_delivery_time_bounds (profile : DeliveryTimeProfile) (scen : Scenario)
    (x : ℚ) (h0 : 0 ≤ profile.min_days) (h1 : profile.min_days ≤ profile.max_days) :
    ⌊profile.min_days⌋ ≤ generate_delivery_time profile scen x
    ∧ (generate_delivery_time profile scen x : ℚ) ≤ profile.max_days := by
  have key : ∀ d : ℚ,
      ⌊profile.min_days⌋ ≤ pyInt (npClip d profile.min_days profile.max_days)
      ∧ (pyInt (npClip d profile.min_days profile.max_days) : ℚ)
          ≤ profile.max_days := by
    intro d
    have hlo : profile.min_days ≤ npClip d profile.min_days profile.max_days :=
      le_min (le_max_right _ _) h1
    have hhi : npClip d profile.min_days profile.max_days ≤ profile.max_days :=
      min_le_right _ _
    have hpos : 0 ≤ npClip d profile.min_days profile.max_days := h0.trans hlo
    rw [pyInt, if_pos hpos]
    exact ⟨Int.floor_le_floor hlo, (Int.floor_le _).trans hhi⟩
  exact key _

/-- The record produced on day `day` carries date offset `day`. -/
theorem sim_step_date (p : SiteParameters) (rp : ℚ) (scen : Scenario) (w0 : ℕ)
    (dN lN : ℕ → ℚ) (day : ℕ) (st : SimState) :
    (sim_step p rp scen w0 dN lN day st).2.date = (day : ℤ) := by
  simp only [sim_step]
  split <;> split <;> rfl

/-- One loop iteration orders exactly when inventory + incoming < reorder
point at the check, with the railcar count max(1, ⌈shortage/capacity⌉) and the
scheduled delivery date day + generate_delivery_time. -/
theorem sim_step_order_spec (p : SiteParameters) (rp : ℚ) (scen : Scenario) (w0 : ℕ)
    (dN lN : ℕ → ℚ) (day : ℕ) (st : SimState) :
    ((sim_step p rp scen w0 dN lN day st).2.order ≠ none
        ↔ (sim_step p rp scen w0 dN lN day st).2.inventory
            + (sim_step p rp scen w0 dN lN day st).2.incoming_at_check < rp)
    ∧ ∀ c d, (sim_step p rp scen w0 dN lN day st).2.order = some (c, d) →
        c = max 1 ⌈(rp - (sim_step p rp scen w0 dN lN day st).2.inventory
              - (sim_step p rp scen w0 dN lN day st).2.incoming_at_check)
            / p.railcar_capacity⌉
        ∧ d = (day : ℤ) + generate_delivery_time p.delivery_profile scen (lN day) := by
  simp only [sim_step]
  split
  all_goals
  · split
    · next hn =>
      constructor
      · simp only [ne_eq, reduceCtorEq, not_false_eq_true, true_iff]
        exact (calculate_needed_railcars_pos_iff _ _ _ _).mp hn
      · intro c d hcd
        simp only [Option.some.injEq, Prod.mk.injEq] at hcd
        obtain ⟨hc, hd⟩ := hcd
        refine ⟨?_, hd.symm⟩
        rw [← hc]
        exact calculate_needed_railcars_of_lt _ _ _ _
          ((calculate_needed_railcars_pos_iff _ _ _ _).mp hn)
    · next hn =>
      constructor
      · exact iff_of_false (fun hcon => hcon rfl)
          (fun hlt => hn ((calculate_needed_railcars_pos_iff _ _ _ _).mpr hlt))
      · intro c d hcd
        simp at hcd

/-- Any per-step property of the produced day record holds for every record
of a run. -/
theorem sim_run_records_mem (p : SiteParameters) (rp : ℚ) (scen : Scenario) (w0 : ℕ)
    (dN lN : ℕ → ℚ) (Q : DayRecord → Prop)
    (hQ : ∀ day st, Q (sim_step p rp scen w0 dN lN day st).2) :
    ∀ n, ∀ r ∈ (sim_run p rp scen w0 dN lN n).2.1, Q r := by
  intro n
  induction n with
  | zero => simp [sim_run]
  | succ k ih =>
    intro r hr
    simp only [sim_run] at hr
    rcases List.mem_append.mp hr with h | h
    · exact ih r h
    · rw [List.mem_singleton] at h
      subst h
      exact hQ k _

/-- The order log is exactly the order events of the day records, in day
order. -/
theorem sim_run_orders_eq (p : SiteParameters) (rp : ℚ) (scen : Scenario) (w0 : ℕ)
    (dN lN : ℕ → ℚ) (n : ℕ) :
    (sim_run p rp scen w0 dN lN n).2.2
      = (sim_run p rp scen w0 dN lN n).2.1.filterMap
          (fun r => r.order.map fun oc => (r.date, oc.1)) := by
  induction n with
  | zero => simp [sim_run]
  | succ k ih =>
    simp only [sim_run, List.filterMap_append, ih]
    congr 1
    cases h : (sim_step p rp scen w0 dN lN k
        (sim_run p rp scen w0 dN lN k).1).2.order with
    | none => simp [List.filterMap_cons, h]
    | some oc => simp [List.filterMap_cons, h]

/-- Order-log shape invariants of a run of `n` days: every logged date is in
[0, n), dates strictly increase, and there are at most `n` entries. -/
theorem sim_run_orders_bounds (p : SiteParameters) (rp : ℚ) (scen : Scenario) (w0 : ℕ)
    (dN lN : ℕ → ℚ) (n : ℕ) :
    (∀ e ∈ (sim_run p rp scen w0 dN lN n).2.2, 0 ≤ e.1 ∧ e.1 < (n : ℤ))
    ∧ ((sim_run p rp scen w0 dN lN n).2.2).Pairwise (fun a b => a.1 < b.1)
    ∧ ((sim_run p rp scen w0 dN lN n).2.2).length ≤ n := by
  induction n with
  | zero => simp [sim_run]
  | succ k ih =>
    obtain ⟨hb, hp, hl⟩ := ih
    have hdate := sim_step_date p rp scen w0 dN lN k (sim_run p rp scen w0 dN lN k).1
    simp only [sim_run]
    cases h : (sim_step p rp scen w0 dN lN k
        (sim_run p rp scen w0 dN lN k).1).2.order with
    | none =>
      simp only [h, List.append_nil]
      refine ⟨fun e he => ⟨(hb e he).1, ?_⟩, hp, hl.trans (Nat.le_succ k)⟩
      have := (hb e he).2
      push_cast
      omega
    | some oc =>
      simp only [h, hdate]
      constructor
      · intro e he
        rcases List.mem_append.mp he with h2 | h2
        · have := hb e h2
          constructor
          · exact this.1
          · push_cast
            omega
        · rw [List.mem_singleton] at h2
          subst h2
          constructor
          · exact Int.natCast_nonneg k
          · push_cast
            omega
      constructor
      · rw [List.pairwise_append]
        refine ⟨hp, List.pairwise_singleton _ _, ?_⟩
        intro a ha b hb2
        rw [List.mem_singleton] at hb2
        subst hb2
        exact (hb a ha).2
      · rw [List.length_append, List.length_singleton]
        omega

/-- Consuming the clamped demand max(0, min(demand, inventory)) cannot drive
a non-negative inventory negative. -/
theorem sub_demand_nonneg (I D : ℚ) (hI : 0 ≤ I) : 0 ≤ I - max 0 (min D I) := by
  have h : max 0 (min D I) ≤ I := max_le hI (min_le_right _ _)
  linarith

/-- One loop iteration preserves non-negativity of the inventory and of all
pending amounts (given non-negative railcar capacity), and records the
end-of-day inventory. -/
theorem sim_step_stateOK (p : SiteParameters) (rp : ℚ) (scen : Scenario) (w0 : ℕ)
    (dN lN : ℕ → ℚ) (day : ℕ) (st : SimState)
    (hcap : 0 ≤ p.railcar_capacity) (hst : StateOK st) :
    StateOK (sim_step p rp scen w0 dN lN day st).1
    ∧ (sim_step p rp scen w0 dN lN day st).2.inventory
        = (sim_step p rp scen w0 dN lN day st).1.current_inv := by
  obtain ⟨hinv, hpend⟩ := hst
  have hdel : 0 ≤ ((st.pending_deliveries.filter
      fun pd => pd.1 = (day : ℤ)).map Prod.snd).sum := by
    apply List.sum_nonneg
    intro a ha
    rw [List.mem_map] at ha
    obtain ⟨pd, hpd, rfl⟩ := ha
    exact hpend pd (List.mem_of_mem_filter hpd)
  have hpend1 : ∀ pd ∈ st.pending_deliveries.filter
      fun pd => pd.1 ≠ (day : ℤ), 0 ≤ pd.2 :=
    fun pd hpd => hpend pd (List.mem_of_mem_filter hpd)
  have hinv1 : 0 ≤ st.current_inv + ((st.pending_deliveries.filter
      fun pd => pd.1 = (day : ℤ)).map Prod.snd).sum := add_nonneg hinv hdel
  simp only [sim_step]
  split
  · split
    · next hn =>
      refine ⟨⟨sub_demand_nonneg _ _ hinv1, ?_⟩, rfl⟩
      intro pd hpd
      rcases List.mem_append.mp hpd with h | h
      · exact hpend1 pd h
      · rw [List.mem_singleton] at h
        subst h
        exact mul_nonneg (by exact_mod_cast hn.le) hcap
    · next hn =>
      exact ⟨⟨sub_demand_nonneg _ _ hinv1, hpend1⟩, rfl⟩
  · split
    · next hn =>
      refine ⟨⟨hinv1, ?_⟩, rfl⟩
      intro pd hpd
      rcases List.mem_append.mp hpd with h | h
      · exact hpend1 pd h
      · rw [List.mem_singleton] at h
        subst h
        exact mul_nonneg (by exact_mod_cast hn.le) hcap
    · next hn =>
      exact ⟨⟨hinv1, hpend1⟩, rfl⟩

/-- Runs started at a non-negative reorder point keep the state invariant and
record only non-negative inventory levels. -/
theorem sim_run_stateOK (p : SiteParameters) (rp : ℚ) (scen : Scenario) (w0 : ℕ)
    (dN lN : ℕ → ℚ) (hrp : 0 ≤ rp) (hcap : 0 ≤ p.railcar_capacity) :
    ∀ n, StateOK (sim_run p rp scen w0 dN lN n).1
    ∧ ∀ r ∈ (sim_run p rp scen w0 dN lN n).2.1, 0 ≤ r.inventory := by
  intro n
  induction n with
  | zero =>
    refine ⟨⟨hrp, ?_⟩, ?_⟩ <;> simp [sim_run]
  | succ k ih =>
    obtain ⟨hok, hrec⟩ := ih
    obtain ⟨hok2, hinv2⟩ :=
      sim_step_stateOK p rp scen w0 dN lN k (sim_run p rp scen w0 dN lN k).1 hcap hok
    constructor
    · simp only [sim_run]
      exact hok2
    · intro r hr
      simp only [sim_run] at hr
      rcases List.mem_append.mp hr with h | h
      · exact hrec r h
      · rw [List.mem_singleton] at h
        subst h
        rw [hinv2]
        exact hok2.1

/-- Concrete two-day run over `P2` from reorder point 10, starting on a
Monday: day 0 consumes 5, orders 1 railcar due day 1; day 1 receives it,
consumes 2, and places no order.  The end-of-day pending totals are 10 then 0,
while the final pending total (repeated in the `incoming` column) is 0. -/
theorem run_P2_eval :
    simulate_days P2 10 .expected 0 dN2 (fun _ => 0) 2
      = ⟨[⟨0, 5, 1, 10, 0, 10, some (1, 1)⟩, ⟨1, 13, 0, 10, 0, 0, none⟩],
         [(0, 1)], [0, 0]⟩ := by
  have hc : ⌈(1 : ℚ) / 2⌉ = 1 := by rw [Int.ceil_eq_iff] ; norm_num
  norm_num [simulate_days, sim_run, sim_step, calculate_needed_railcars,
    generate_delivery_time, npClip, pyInt, demand_multiplier, P2, dN2,
    List.filter, List.replicate, hc]

/-- Concrete one-day run over `P6`: the order placed on day 0 draws delivery
time 8/5, clipped to [3/2, 7/2] and truncated by `int()` to 1, scheduling the
delivery on day 1. -/
theorem run_P6_eval :
    simulate_days P6 10 .expected 0 (fun _ => 0) (fun _ => 0) 1
      = ⟨[⟨0, 5, 1, 10, 0, 10, some (1, 1)⟩], [(0, 1)], [10]⟩ := by
  have hc : ⌈(1 : ℚ) / 2⌉ = 1 := by rw [Int.ceil_eq_iff] ; norm_num
  have hf : ⌊(8 : ℚ) / 5⌋ = 1 := by rw [Int.floor_eq_iff] ; norm_num
  norm_num [simulate_days, sim_run, sim_step, calculate_needed_railcars,
    generate_delivery_time, npClip, pyInt, demand_multiplier, P6,
    List.filter, List.replicate, hc, hf]

/-- Claim C2 fails on the code: the source builds the `incoming` column after
the loop from the final `pending_deliveries`, repeating one value across all
rows.  In the two-day run over `P2` the column is [0, 0], while the per-day
end-of-day pending totals are [10, 0]: day 0's snapshot does not hold day 0's
pending sum. -/
theorem C2_incoming_column_repeats_final :
    (simulate_days P2 10 .expected 0 dN2 (fun _ => 0) 2).incoming_column = [0, 0]
    ∧ (simulate_days P2 10 .expected 0 dN2 (fun _ => 0) 2).records.map
        (fun r => r.pending_after) = [10, 0]
    ∧ (simulate_days P2 10 .expected 0 dN2 (fun _ => 0) 2).incoming_column
        ≠ (simulate_days P2 10 .expected 0 dN2 (fun _ => 0) 2).records.map
            (fun r => r.pending_after) := by
  rw [run_P2_eval]
  refine ⟨rfl, rfl, ?_⟩
  norm_num

/-- Claim C4: in every run, day d logs an order if and only if
inventory + incoming < reorder_point held at the reorder-check step of day d,
and the logged count is max(1, ⌈(reorder_point − inventory − incoming) /
railcar_capacity⌉); the returned order list is exactly the per-day order
events. -/
theorem C4_order_iff_shortage (p : SiteParameters) (rp : ℚ) (scen : Scenario) (w0 : ℕ)
    (dN lN : ℕ → ℚ) (days : ℕ) :
    (simulate_days p rp scen w0 dN lN days).orders
      = (simulate_days p rp scen w0 dN lN days).records.filterMap
          (fun r => r.order.map fun oc => (r.date, oc.1))
    ∧ ∀ r ∈ (simulate_days p rp scen w0 dN lN days).records,
        (r.order ≠ none ↔ r.inventory + r.incoming_at_check < rp)
        ∧ ∀ c d, r.order = some (c, d) →
            c = max 1 ⌈(rp - r.inventory - r.incoming_at_check)
                / p.railcar_capacity⌉ := by
  constructor
  · exact sim_run_orders_eq p rp scen w0 dN lN days
  · intro r hr
    exact sim_run_records_mem p rp scen w0 dN lN
      (fun r => (r.order ≠ none ↔ r.inventory + r.incoming_at_check < rp)
        ∧ ∀ c d, r.order = some (c, d) →
            c = max 1 ⌈(rp - r.inventory - r.incoming_at_check)
                / p.railcar_capacity⌉)
      (fun day st => ⟨(sim_step_order_spec p rp scen w0 dN lN day st).1,
        fun c d h => ((sim_step_order_spec p rp scen w0 dN lN day st).2 c d h).1⟩)
      days r hr

/-- Witness for C4_order_iff_shortage on the concrete two-day `P2` run. -/
theorem C4_order_iff_shortage_witness :
    (⟨0, 5, 1, 10, 0, 10, some (1, 1)⟩ : DayRecord)
        ∈ (simulate_days P2 10 .expected 0 dN2 (fun _ => 0) 2).records
    ∧ ((⟨0, 5, 1, 10, 0, 10, some (1, 1)⟩ : DayRecord).order ≠ none
        ↔ (5 : ℚ) + 0 < 10) := by
  have hmem : (⟨0, 5, 1, 10, 0, 10, some (1, 1)⟩ : DayRecord)
      ∈ (simulate_days P2 10 .expected 0 dN2 (fun _ => 0) 2).records := by
    rw [run_P2_eval]
    exact List.mem_cons_self _ _
  exact ⟨hmem,
    ((C4_order_iff_shortage P2 10 .expected 0 dN2 (fun _ => 0) 2).2 _ hmem).1⟩

/-- Claim C5: with a non-negative reorder point (and the data-model invariant
of non-negative railcar capacity), every recorded inventory level is
non-negative: demand is clamped to [0, current inventory]. -/
theorem C5_inventory_nonneg (p : SiteParameters) (rp : ℚ) (scen : Scenario) (w0 : ℕ)
    (dN lN : ℕ → ℚ) (days : ℕ) (hrp : 0 ≤ rp) (hcap : 0 ≤ p.railcar_capacity) :
    ∀ r ∈ (simulate_days p rp scen w0 dN lN days).records, 0 ≤ r.inventory :=
  fun r hr => (sim_run_stateOK p rp scen w0 dN lN hrp hcap days).2 r hr

/-- Witness for C5_inventory_nonneg on the concrete two-day `P2` run. -/
theorem C5_inventory_nonneg_witness :
    (0 : ℚ) ≤ 10 ∧ (0 : ℚ) ≤ P2.railcar_capacity
    ∧ (0 : ℚ) ≤ (⟨1, 13, 0, 10, 0, 0, none⟩ : DayRecord).inventory := by
  refine ⟨by norm_num, by norm_num [P2], ?_⟩
  exact C5_inventory_nonneg P2 10 .expected 0 dN2 (fun _ => 0) 2
    (by norm_num) (by norm_num [P2]) _
    (by rw [run_P2_eval]; exact List.mem_cons_of_mem _ (List.mem_cons_self _ _))

/-- Claim C6 fails on the code: with min_days = 3/2 the order placed on day 0
of the `P6` run is scheduled for day 1, which is before
order_date + min_days = 3/2, because `int(np.clip(...))` truncates the clipped
draw below a fractional minimum. -/
theorem C6_truncation_counterexample :
    (simulate_days P6 10 .expected 0 (fun _ => 0) (fun _ => 0) 1).records.map
        (fun r => r.order) = [some (1, 1)]
    ∧ ¬ ((0 : ℚ) + P6.delivery_profile.min_days ≤ ((1 : ℤ) : ℚ)) := by
  constructor
  · rw [run_P6_eval]
    rfl
  · norm_num [P6]

/-- Claim C6 amended: every scheduled delivery date lies within
[order_date + ⌊min_days⌋, order_date + max_days] (for a delivery profile with
0 ≤ min_days ≤ max_days); the claimed lower bound order_date + min_days holds
only when min_days is an integer. -/
theorem C6_delivery_window_floor (p : SiteParameters) (rp : ℚ) (scen : Scenario)
    (w0 : ℕ) (dN lN : ℕ → ℚ) (days : ℕ)
    (h0 : 0 ≤ p.delivery_profile.min_days)
    (h1 : p.delivery_profile.min_days ≤ p.delivery_profile.max_days) :
    ∀ r ∈ (simulate_days p rp scen w0 dN lN days).records,
      ∀ c d, r.order = some (c, d) →
        r.date + ⌊p.delivery_profile.min_days⌋ ≤ d
        ∧ (d : ℚ) ≤ (r.date : ℚ) + p.delivery_profile.max_days := by
  intro r hr
  refine sim_run_records_mem p rp scen w0 dN lN
    (fun r => ∀ c d, r.order = some (c, d) →
      r.date + ⌊p.delivery_profile.min_days⌋ ≤ d
      ∧ (d : ℚ) ≤ (r.date : ℚ) + p.delivery_profile.max_days) ?_ days r hr
  intro day st c d hcd
  have hdate := sim_step_date p rp scen w0 dN lN day st
  have hd := ((sim_step_order_spec p rp scen w0 dN lN day st).2 c d hcd).2
  have hb := generate_delivery_time_bounds p.delivery_profile scen (lN day) h0 h1
  subst hd
  rw [hdate]
  constructor
  · exact add_le_add_left hb.1 _
  · push_cast
    exact add_le_add_left hb.2 _

/-- Witness for C6_delivery_window_floor on the concrete two-day `P2` run
(integer delivery window [1, 1]). -/
theorem C6_delivery_window_floor_witness :
    0 ≤ P2.delivery_profile.min_days
    ∧ ((0 : ℤ) + ⌊P2.delivery_profile.min_days⌋ ≤ 1
        ∧ ((1 : ℤ) : ℚ) ≤ ((0 : ℤ) : ℚ) + P2.delivery_profile.max_days) := by
  refine ⟨by norm_num [P2], ?_⟩
  have hmem : (⟨0, 5, 1, 10, 0, 10, some (1, 1)⟩ : DayRecord)
      ∈ (simulate_days P2 10 .expected 0 dN2 (fun _ => 0) 2).records := by
    rw [run_P2_eval]
    exact List.mem_cons_self _ _
  exact C6_delivery_window_floor P2 10 .expected 0 dN2 (fun _ => 0) 2
    (by norm_num [P2]) (by norm_num [P2]) _ hmem 1 1 rfl

/-- Claim C9 fails on the code: there is no empty-series guard.  On an empty
time series `np.mean` yields NaN and `int(NaN)` raises ValueError, so
`get_scenario_metrics` fails rather than returning average_inventory = 0. -/
theorem C9_empty_series_counterexample :
    get_scenario_metrics [] [] = Except.error "cannot convert float NaN to integer"
    ∧ get_scenario_metrics [] [] ≠ Except.ok ⟨0, 0, 0⟩ := by
  refine ⟨rfl, ?_⟩
  intro h
  simp [get_scenario_metrics] at h

/-- Claim C9 amended: `get_scenario_metrics` succeeds exactly on nonempty
time series; on an empty series it fails with the NaN conversion error
instead of returning zero metrics. -/
theorem C9_empty_guard (inventory : List ℚ) (orders : List (ℤ × ℤ)) :
    ((∃ m, get_scenario_metrics inventory orders = Except.ok m) ↔ inventory ≠ [])
    ∧ (inventory = [] →
        get_scenario_metrics inventory orders
          = Except.error "cannot convert float NaN to integer") := by
  cases inventory with
  | nil =>
    refine ⟨⟨?_, ?_⟩, fun _ => rfl⟩
    · rintro ⟨m, hm⟩
      simp [get_scenario_metrics] at hm
    · intro hne
      exact absurd rfl hne
  | cons a l =>
    refine ⟨⟨fun _ => List.cons_ne_nil a l, fun _ => ⟨_, rfl⟩⟩, ?_⟩
    intro hemp
    exact absurd hemp (List.cons_ne_nil a l)

/-- Witness for C9_empty_guard at an empty and a one-element series. -/
theorem C9_empty_guard_witness :
    get_scenario_metrics [] [] = Except.error "cannot convert float NaN to integer"
    ∧ ∃ m, get_scenario_metrics [(5 : ℚ)] [] = Except.ok m :=
  ⟨(C9_empty_guard [] []).2 rfl, (C9_empty_guard [(5 : ℚ)] []).1.mpr (by simp)⟩

/-- Claim C10: at most one order event per simulated day — the order log has
at most `days` entries, its dates strictly increase, and every logged date
falls within the simulated window [0, days). -/
theorem C10_order_log_shape (p : SiteParameters) (rp : ℚ) (scen : Scenario) (w0 : ℕ)
    (dN lN : ℕ → ℚ) (days : ℕ) :
    ((simulate_days p rp scen w0 dN lN days).orders).length ≤ days
    ∧ ((simulate_days p rp scen w0 dN lN days).orders).Pairwise
        (fun a b => a.1 < b.1)
    ∧ ∀ e ∈ (simulate_days p rp scen w0 dN lN days).orders,
        0 ≤ e.1 ∧ e.1 < (days : ℤ) := by
  obtain ⟨hb, hp, hl⟩ := sim_run_orders_bounds p rp scen w0 dN lN days
  exact ⟨hl, hp, hb⟩

/-- Witness for C10_order_log_shape on the concrete two-day `P2` run. -/
theorem C10_order_log_shape_witness :
    ((0 : ℤ), (1 : ℤ)) ∈ (simulate_days P2 10 .expected 0 dN2 (fun _ => 0) 2).orders
    ∧ (0 : ℤ) ≤ 0 ∧ (0 : ℤ) < ((2 : ℕ) : ℤ) := by
  have hmem : ((0 : ℤ), (1 : ℤ))
      ∈ (simulate_days P2 10 .expected 0 dN2 (fun _ => 0) 2).orders := by
    rw [run_P2_eval]
    exact List.mem_singleton_self _
  exact ⟨hmem,
    (C10_order_log_shape P2 10 .expected 0 dN2 (fun _ => 0) 2).2.2 _ hmem⟩
